import Mathlib

/-!
Shallow embedding of the message-relay core of `web-app-tools`:
`src/network/helper/helper.py` (Endpoint, parse_message) and
`src/network/router.py` (Router lifecycle, connection-set mutators,
serve loops).  Network I/O is made explicit: the outcome of a
`send_message` call is an oracle `Endpoint → Except String Unit`,
inbound traffic is a list of already-decoded messages, and each log
line emitted through `self._log` is accumulated in a list.
-/

/-- `Endpoint` from helper.py: a plain dataclass with fields
`ip_address` and `port`.  Python ints are unbounded, so `port : Int`. -/
structure Endpoint where
  ip_address : String
  port : Int
deriving DecidableEq, Repr

/-- The dataclass constructor `Endpoint(ip_address, port)`: it only
assigns the two fields and performs no validation, so it is total.
It is wrapped in `Except` so that claims about construction failing
can be stated. -/
def mkEndpoint (host : String) (p : Int) : Except String Endpoint :=
  .ok ⟨host, p⟩

/-- The f-string fragment `f"{endpoint.ip_address}:{endpoint.port}"`
used in the Router's log lines. -/
def endpointStr (e : Endpoint) : String :=
  e.ip_address ++ ":" ++ toString e.port

/-- Python's `str.isspace` characters, restricted to the ASCII range
that the repository's messages use. -/
def isPySpace (c : Char) : Bool :=
  c = ' ' || c = '\t' || c = '\n' || c = '\x0d' || c = '\x0b' || c = '\x0c'

/-- Python `str.lstrip()` on the character list of a string. -/
def pyLStrip (s : List Char) : List Char :=
  s.dropWhile isPySpace

/-- Python `str.rstrip()` on the character list of a string. -/
def pyRStrip (s : List Char) : List Char :=
  (s.reverse.dropWhile isPySpace).reverse

/-- Python `str.strip()` on the character list of a string. -/
def pyStrip (s : List Char) : List Char :=
  pyRStrip (pyLStrip s)

/-- Python `text.split(sep, maxsplit=1)`: `none` models the one-element
result when `sep` does not occur (i.e. `sep not in text`), `some (a, b)`
the split at the first occurrence. -/
def splitFirst (sep : Char) : List Char → Option (List Char × List Char)
  | [] => none
  | c :: rest =>
    if c = sep then some ([], rest)
    else
      match splitFirst sep rest with
      | some (a, b) => some (c :: a, b)
      | none => none

/-- Value of a nonempty string of ASCII decimal digits; `none` when the
list is empty or contains a non-digit. -/
def digitsVal (s : List Char) : Option Nat :=
  if s.isEmpty then none
  else if s.all Char.isDigit then
    some (s.foldl (fun acc c => acc * 10 + (c.toNat - 48)) 0)
  else none

/-- Python's built-in `int(str)`: strips whitespace, then accepts an
optional `+`/`-` sign followed by decimal digits.  (Underscore digit
grouping and non-ASCII digits, which the repository never produces,
are not modelled.) -/
def pyInt (s0 : List Char) : Option Int :=
  match pyStrip s0 with
  | '+' :: rest => (digitsVal rest).map Int.ofNat
  | '-' :: rest => (digitsVal rest).map (fun n => -(Int.ofNat n : Int))
  | s => (digitsVal s).map Int.ofNat

/-- `parse_message` from helper.py, line for line:
strip, require a leading `[` and a `]` somewhere, split at the first
`]` into header and payload, drop the `[`, require a `:` in the header,
split at the first `:` into ip and port text, strip the ip, convert the
stripped port text with `int` (a `ValueError` when it is not an integer
literal), and lstrip the payload. -/
def parse_message (text0 : String) : Except String (String × Int × String) :=
  let text := pyStrip text0.data
  match text with
  | '[' :: afterBracket =>
    match splitFirst ']' afterBracket with
    | none => .error ("Invalid message format: " ++ String.mk text)
    | some (header, payload) =>
      match splitFirst ':' header with
      | none => .error ("Invalid header (missing colon): " ++ String.mk header)
      | some (ipRaw, portRaw) =>
        match pyInt portRaw with
        | none => .error ("invalid literal for int(): " ++ String.mk portRaw)
        | some port => .ok (String.mk (pyStrip ipRaw), port, String.mk (pyLStrip payload))
  | _ => .error ("Invalid message format: " ++ String.mk text)

/-- The observable state of a `Router` (router.py).  Sockets and the
worker thread are modelled by presence flags: `serverSocketOpen` is
`self.server_socket is not None`, `activeConnectionOpen` is
`self._active_connection is not None`, `threadStarted` is
`self._thread is not None`.  `logs` accumulates every line passed to
`self._log` in order. -/
structure RouterState where
  endpoint : Endpoint
  connections : List Endpoint
  logs : List String
  isRunning : Bool
  protocol : Option String
  serverSocketOpen : Bool
  activeConnectionOpen : Bool
  threadStarted : Bool
deriving DecidableEq, Repr

namespace Router

/-- `self._log(text)`: appends the line to the log stream. -/
def log (s : RouterState) (line : String) : RouterState :=
  { s with logs := s.logs ++ [line] }

/-- `Router.__init__(endpoint, connections, on_log)`:
`self.connections = list(connections) if connections is not None else []`
— the initial list is copied verbatim, with no duplicate or self
filtering.  All flags start cleared. -/
def mkRouter (endpoint : Endpoint) (connections : Option (List Endpoint)) : RouterState :=
  { endpoint := endpoint
    connections := connections.getD []
    logs := []
    isRunning := false
    protocol := none
    serverSocketOpen := false
    activeConnectionOpen := false
    threadStarted := false }

/-- `Router.add_connections(endpoints)`:
keep only the endpoints that are neither already present nor equal to
the router's own endpoint; log one warning when anything was dropped;
extend the list with the remainder. -/
def add_connections (s : RouterState) (endpoints : List Endpoint) : RouterState :=
  let new_endpoints :=
    endpoints.filter (fun e => decide (e ∉ s.connections ∧ e ≠ s.endpoint))
  let s1 :=
    if new_endpoints.length ≠ endpoints.length then
      log s "Ignoring attempt to connect self or duplicate endpoint."
    else s
  { s1 with connections := s1.connections ++ new_endpoints }

/-- `Router.remove_connections(endpoints)`:
`self.connections = [e for e in self.connections if e not in endpoints]`. -/
def remove_connections (s : RouterState) (endpoints : List Endpoint) : RouterState :=
  { s with connections := s.connections.filter (fun e => decide (e ∉ endpoints)) }

/-- `Router.start(protocol)`: an early return when already running
(before any protocol validation), then a `ValueError` for a protocol
other than TCP/UDP, then record the protocol, spawn the worker, set the
running flag and log the start line. -/
def start (s : RouterState) (protocol : String) : Except String RouterState :=
  if s.isRunning then .ok s
  else if protocol ≠ "TCP" ∧ protocol ≠ "UDP" then
    .error ("Unsupported protocol: " ++ protocol ++ " (expected TCP or UDP)")
  else
    .ok (log
      { s with protocol := some protocol, threadStarted := true, isRunning := true }
      ("Router started: " ++ endpointStr s.endpoint ++ ", (" ++ protocol ++ ")"))

/-- `Router.stop()`: an early return when not running; otherwise close
and clear both socket handles, join the worker (no state change), clear
the running flag and log `"Router stopped."`. -/
def stop (s : RouterState) : RouterState :=
  if !s.isRunning then s
  else
    log
      { s with serverSocketOpen := false, activeConnectionOpen := false, isRunning := false }
      "Router stopped."

/-- A runtime connection-set mutation, for stating invariants over
arbitrary call sequences. -/
inductive Op where
  | add (endpoints : List Endpoint)
  | remove (endpoints : List Endpoint)

/-- Apply one mutation. -/
def applyOp (s : RouterState) : Op → RouterState
  | .add es => add_connections s es
  | .remove es => remove_connections s es

/-- Apply a sequence of mutations in order. -/
def applyOps (s : RouterState) (ops : List Op) : RouterState :=
  ops.foldl applyOp s

end Router

namespace Router

/-- One iteration of the forwarding `for` loop body: try
`send_message`; on success log `"Forwarded to <endpoint>"`, on any
exception catch it and log `"Forward failed to <endpoint> -> <error>"`.
The returned pair records the attempted endpoint together with the log
line the attempt produced. -/
def forward_one (send : Endpoint → Except String Unit) (e : Endpoint) :
    Endpoint × String :=
  match send e with
  | .ok _ => (e, "Forwarded to " ++ endpointStr e)
  | .error exc => (e, "Forward failed to " ++ endpointStr e ++ " -> " ++ exc)

/-- The forwarding `for` loop over the current connection list, in
order.  Every iteration is total (the `except` clause catches every
send error), so the loop always reaches the end of the list. -/
def forward_loop (send : Endpoint → Except String Unit) :
    List Endpoint → List (Endpoint × String)
  | [] => []
  | e :: rest => forward_one send e :: forward_loop send rest

/-- The body of `_serve_tcp` for one accepted connection, given the
nonempty chunks `recv` returned before end-of-stream (each chunk
already decoded).  `if not chunks: continue` — an empty chunk list is
skipped with no log and no forward; otherwise the joined message is
logged as received and forwarded to every connection. -/
def handle_tcp_connection (conns : List Endpoint)
    (send : Endpoint → Except String Unit) (chunks : List String) : List String :=
  if chunks.isEmpty then []
  else
    let message := String.join chunks
    ("Received: " ++ message) :: (forward_loop send conns).map Prod.snd

/-- The body of `_serve_udp` for one datagram (already decoded): log
the message as received — with no emptiness check — and forward it to
every connection. -/
def handle_udp_datagram (conns : List Endpoint)
    (send : Endpoint → Except String Unit) (message : String) : List String :=
  ("Received: " ++ message) :: (forward_loop send conns).map Prod.snd

/-- The `_serve_tcp` loop over a finite trace of accepted connections
(the loop itself only ends when `stop()` closes the listening socket,
which here is the end of the trace). -/
def serve_tcp_trace (conns : List Endpoint)
    (send : Endpoint → Except String Unit) : List (List String) → List String
  | [] => []
  | chunks :: rest =>
    handle_tcp_connection conns send chunks ++ serve_tcp_trace conns send rest

/-- The `_serve_udp` loop over a finite trace of datagrams. -/
def serve_udp_trace (conns : List Endpoint)
    (send : Endpoint → Except String Unit) : List String → List String
  | [] => []
  | d :: rest =>
    handle_udp_datagram conns send d ++ serve_udp_trace conns send rest

end Router

/-- Recognizes the `"Received: <message>"` log lines of the serve
loops. -/
def isReceivedLine (l : String) : Bool :=
  l.data.take 10 == "Received: ".data

/-- For stating invariants over mutation sequences: the argument list
of an `add` call is duplicate-free. -/
def Router.Op.inputNodupB : Router.Op → Bool
  | .add es => decide es.Nodup
  | .remove _ => true

/-- Concrete endpoint used when instantiating general theorems. -/
def epA : Endpoint := ⟨"127.0.0.1", 9001⟩

/-- Concrete endpoint used when instantiating general theorems. -/
def epB : Endpoint := ⟨"127.0.0.1", 9002⟩

/-- Concrete endpoint used when instantiating general theorems. -/
def epC : Endpoint := ⟨"127.0.0.1", 9003⟩

/-- A concrete send oracle for which port 9002 is unreachable and every
other endpoint accepts the message. -/
def cxSend : Endpoint → Except String Unit :=
  fun e => if e.port = 9002 then .error "ConnectionRefusedError" else .ok ()

/-- A concrete router state in the Running state. -/
def runningRouter : RouterState :=
  { endpoint := epA
    connections := [epB]
    logs := []
    isRunning := true
    protocol := some "TCP"
    serverSocketOpen := true
    activeConnectionOpen := false
    threadStarted := true }

section ForwardLemmas

variable (send : Endpoint → Except String Unit)

/-- The forwarding loop distributes over list append: what happened on
earlier endpoints never changes what the loop does on later ones. -/
theorem forward_loop_append (l₁ l₂ : List Endpoint) :
    Router.forward_loop send (l₁ ++ l₂)
      = Router.forward_loop send l₁ ++ Router.forward_loop send l₂ := by
  induction l₁ with
  | nil => rfl
  | cons e rest ih => simp [Router.forward_loop, ih]

/-- Every endpoint of the connection list is attempted, in order. -/
theorem forward_loop_map_fst (l : List Endpoint) :
    (Router.forward_loop send l).map Prod.fst = l := by
  induction l with
  | nil => rfl
  | cons e rest ih =>
    simp only [Router.forward_loop, List.map_cons, ih]
    cases h : send e <;> simp [Router.forward_one, h]

/-- A successful send produces its `"Forwarded to"` line. -/
theorem forward_loop_mem_ok (l : List Endpoint) (e : Endpoint) (u : Unit)
    (hmem : e ∈ l) (hok : send e = .ok u) :
    (e, "Forwarded to " ++ endpointStr e) ∈ Router.forward_loop send l := by
  induction l with
  | nil => cases hmem
  | cons a rest ih =>
    rcases List.mem_cons.mp hmem with h | h
    · subst h
      simp [Router.forward_loop, Router.forward_one, hok]
    · exact List.mem_cons_of_mem _ (ih h)

/-- `"Received: ..."` lines are recognized. -/
theorem isReceivedLine_received (m : String) :
    isReceivedLine ("Received: " ++ m) = true := by
  rw [isReceivedLine, String.data_append]
  rfl

/-- `"Forwarded to ..."` lines are not received lines. -/
theorem isReceivedLine_forwarded (t : String) :
    isReceivedLine ("Forwarded to " ++ t) = false := by
  rw [isReceivedLine, String.data_append]
  rfl

/-- `"Forward failed to ..."` lines are not received lines. -/
theorem isReceivedLine_forward_failed (t : String) :
    isReceivedLine ("Forward failed to " ++ t) = false := by
  rw [isReceivedLine, String.data_append]
  rfl

/-- No log line of the forwarding loop looks like a received line. -/
theorem isReceivedLine_forward (l : List Endpoint) (p : Endpoint × String)
    (hmem : p ∈ Router.forward_loop send l) : isReceivedLine p.2 = false := by
  induction l with
  | nil => cases hmem
  | cons a rest ih =>
    rcases List.mem_cons.mp hmem with h | h
    · subst h
      cases hs : send a with
      | ok u =>
        simp only [Router.forward_one, hs]
        exact isReceivedLine_forwarded (endpointStr a)
      | error exc =>
        simp only [Router.forward_one, hs]
        rw [String.append_assoc, String.append_assoc]
        exact isReceivedLine_forward_failed (endpointStr a ++ (" -> " ++ exc))
    · exact ih h

end ForwardLemmas

section TraceLemmas

variable (send : Endpoint → Except String Unit)

/-- Forward-loop log lines contribute nothing to the received count. -/
theorem countP_received_forward (conns : List Endpoint) :
    ((Router.forward_loop send conns).map Prod.snd).countP isReceivedLine = 0 := by
  rw [List.countP_eq_zero]
  intro l hl
  rcases List.mem_map.mp hl with ⟨p, hp, hpl⟩
  rw [← hpl]
  simp [isReceivedLine_forward send conns p hp]

/-- Each UDP datagram contributes exactly one `"Received:"` line,
whatever the send outcomes are. -/
theorem serve_udp_received_count (conns : List Endpoint) (msgs : List String) :
    (Router.serve_udp_trace conns send msgs).countP isReceivedLine = msgs.length := by
  induction msgs with
  | nil => rfl
  | cons m rest ih =>
    rw [Router.serve_udp_trace, List.countP_append, ih]
    rw [Router.handle_udp_datagram, List.countP_cons_of_pos _ _ (isReceivedLine_received m)]
    rw [countP_received_forward, List.length_cons]
    omega

/-- Each accepted TCP connection that delivered at least one chunk
contributes exactly one `"Received:"` line; empty ones contribute
nothing — whatever the send outcomes are. -/
theorem serve_tcp_received_count (conns : List Endpoint) (trace : List (List String)) :
    (Router.serve_tcp_trace conns send trace).countP isReceivedLine
      = (trace.filter (fun chunks => !chunks.isEmpty)).length := by
  induction trace with
  | nil => rfl
  | cons chunks rest ih =>
    rw [Router.serve_tcp_trace, List.countP_append, ih]
    by_cases h : chunks.isEmpty
    · rw [Router.handle_tcp_connection, if_pos h]
      simp [h]
    · rw [Router.handle_tcp_connection, if_neg h]
      rw [List.countP_cons_of_pos _ _ (isReceivedLine_received (String.join chunks))]
      rw [countP_received_forward]
      simp [h]
      omega

end TraceLemmas

/-- C1: Forwarding failures are isolated per connection.  If sending to
endpoint `e` fails, the loop logs a single `"Forward failed to
<endpoint> -> <error>"` line for `e`, still attempts the send to every
endpoint before and after `e` in order (the attempted endpoints are
exactly the connection list), logs `"Forwarded to <endpoint>"` for each
successful one, and the serve loops keep processing every further
inbound message: over any trace, each UDP datagram and each nonempty
TCP connection still produces exactly one `"Received:"` line. -/
theorem forwarding_failure_isolated
    (send : Endpoint → Except String Unit) (pre rest conns : List Endpoint)
    (e : Endpoint) (exc : String) (msgs : List String) (trace : List (List String))
    (h : send e = .error exc) :
    Router.forward_loop send (pre ++ e :: rest)
      = Router.forward_loop send pre
        ++ (e, "Forward failed to " ++ endpointStr e ++ " -> " ++ exc)
          :: Router.forward_loop send rest
    ∧ (Router.forward_loop send (pre ++ e :: rest)).map Prod.fst = pre ++ e :: rest
    ∧ (∀ e2 u, e2 ∈ rest → send e2 = .ok u →
        (e2, "Forwarded to " ++ endpointStr e2) ∈ Router.forward_loop send rest)
    ∧ (Router.serve_udp_trace conns send msgs).countP isReceivedLine = msgs.length
    ∧ (Router.serve_tcp_trace conns send trace).countP isReceivedLine
        = (trace.filter (fun chunks => !chunks.isEmpty)).length := by
  refine ⟨?_, forward_loop_map_fst send _, ?_, serve_udp_received_count send conns msgs,
    serve_tcp_received_count send conns trace⟩
  · rw [forward_loop_append]
    simp [Router.forward_loop, Router.forward_one, h]
  · intro e2 u hmem hok
    exact forward_loop_mem_ok send rest e2 u hmem hok

/-- C1 witness: with connections `[epA, epB, epC]` and `epB`
unreachable under `cxSend`, the failure on `epB` leaves the attempts on
`epA` and `epC` intact. -/
theorem forwarding_failure_isolated_witness :
    Router.forward_loop cxSend ([epA] ++ epB :: [epC])
      = Router.forward_loop cxSend [epA]
        ++ (epB, "Forward failed to " ++ endpointStr epB ++ " -> " ++ "ConnectionRefusedError")
          :: Router.forward_loop cxSend [epC] :=
  (forwarding_failure_isolated cxSend [epA] [epC] [] epB "ConnectionRefusedError" [] []
    rfl).1

/-- C10: the UDP serve loop does not skip empty messages — an empty
datagram is logged as `"Received: "` and forwarded to every current
connection — while the TCP serve loop skips an accepted connection that
delivered no bytes, with no log and no forward. -/
theorem udp_empty_datagram_not_skipped
    (conns : List Endpoint) (send : Endpoint → Except String Unit) :
    Router.handle_udp_datagram conns send ""
      = "Received: " :: (Router.forward_loop send conns).map Prod.snd
    ∧ (Router.forward_loop send conns).map Prod.fst = conns
    ∧ Router.handle_tcp_connection conns send [] = [] := by
  refine ⟨?_, forward_loop_map_fst send conns, rfl⟩
  rw [Router.handle_udp_datagram]
  norm_num

/-- C7: `stop()` is idempotent — on a non-running Router it is a no-op
leaving the whole state (connections, logs, flags, sockets) unchanged,
and after stopping a Running Router a second `stop()` changes nothing,
so the log stream gains exactly one `"Router stopped."` line. -/
theorem stop_idempotent (s : RouterState) :
    (s.isRunning = false → Router.stop s = s)
    ∧ (s.isRunning = true →
        Router.stop (Router.stop s) = Router.stop s
        ∧ (Router.stop s).logs = s.logs ++ ["Router stopped."]
        ∧ (Router.stop (Router.stop s)).logs = s.logs ++ ["Router stopped."]) := by
  constructor
  · intro h
    rw [Router.stop, h]
    rfl
  · intro h
    have h1 : Router.stop s
        = Router.log
            { s with serverSocketOpen := false, activeConnectionOpen := false,
                     isRunning := false }
            "Router stopped." := by
      rw [Router.stop, h]
      rfl
    have h2 : (Router.stop s).isRunning = false := by
      rw [h1]
      rfl
    have h3 : Router.stop (Router.stop s) = Router.stop s := by
      rw [Router.stop, h2]
      rfl
    refine ⟨h3, ?_, ?_⟩
    · rw [h1]
      rfl
    · rw [h3, h1]
      rfl

/-- C7 witness: stopping the concrete running router twice equals
stopping it once and logs exactly one `"Router stopped."` line. -/
theorem stop_idempotent_witness :
    Router.stop (Router.stop runningRouter) = Router.stop runningRouter
    ∧ (Router.stop runningRouter).logs = runningRouter.logs ++ ["Router stopped."]
    ∧ (Router.stop (Router.stop runningRouter)).logs
        = runningRouter.logs ++ ["Router stopped."] :=
  (stop_idempotent runningRouter).2 rfl

/-- C8: on a Running Router, `start(protocol)` returns silently with the
state unchanged for every protocol value, including unsupported ones,
because the already-Running early return precedes protocol validation;
on a non-running Router the same unsupported protocol raises. -/
theorem start_running_skips_validation (s : RouterState) (protocol : String) :
    (s.isRunning = true → Router.start s protocol = .ok s)
    ∧ (s.isRunning = false → protocol ≠ "TCP" → protocol ≠ "UDP" →
        Router.start s protocol
          = .error ("Unsupported protocol: " ++ protocol ++ " (expected TCP or UDP)")) := by
  constructor
  · intro h
    rw [Router.start, h]
    rfl
  · intro h h1 h2
    rw [Router.start, h]
    simp [h1, h2]

/-- C8 witness: `start("BOGUS")` on the concrete running router returns
it unchanged, while on the same router freshly constructed (stopped) it
raises the unsupported-protocol error. -/
theorem start_running_skips_validation_witness :
    Router.start runningRouter "BOGUS" = .ok runningRouter
    ∧ Router.start (Router.mkRouter epA (some [epB])) "BOGUS"
        = .error ("Unsupported protocol: " ++ "BOGUS" ++ " (expected TCP or UDP)") :=
  ⟨(start_running_skips_validation runningRouter "BOGUS").1 rfl,
   (start_running_skips_validation (Router.mkRouter epA (some [epB])) "BOGUS").2 rfl
     (by decide) (by decide)⟩

/-- Helper: a filter keeps the full length exactly when every element
passes the predicate. -/
theorem length_filter_eq_iff_all {α : Type} (p : α → Bool) (l : List α) :
    (l.filter p).length = l.length ↔ ∀ a ∈ l, p a := by
  constructor
  · intro hlen
    rw [← List.filter_eq_self]
    exact (List.filter_sublist l).eq_of_length hlen
  · intro hall
    rw [List.filter_eq_self.mpr hall]

/-- Helper: the connection list after `add_connections` is the old list
plus the input endpoints that are new and not the router itself. -/
theorem add_connections_connections (s : RouterState) (es : List Endpoint) :
    (Router.add_connections s es).connections
      = s.connections
        ++ es.filter (fun e => decide (e ∉ s.connections ∧ e ≠ s.endpoint)) := by
  simp only [Router.add_connections]
  split <;> rfl

/-- Helper: `add_connections` logs the warning exactly when the filter
dropped something. -/
theorem add_connections_logs (s : RouterState) (es : List Endpoint) :
    (Router.add_connections s es).logs
      = if (es.filter (fun e => decide (e ∉ s.connections ∧ e ≠ s.endpoint))).length
            ≠ es.length
        then s.logs ++ ["Ignoring attempt to connect self or duplicate endpoint."]
        else s.logs := by
  simp only [Router.add_connections]
  split <;> rfl

/-- Helper: all other fields of the state are untouched by
`add_connections`. -/
theorem add_connections_endpoint (s : RouterState) (es : List Endpoint) :
    (Router.add_connections s es).endpoint = s.endpoint := by
  simp only [Router.add_connections]
  split <;> rfl

/-- C6: `addConnections(endpoints)` filters out endpoints already
present and endpoints equal to the router's own endpoint, appends the
remainder in order, and logs exactly one warning line precisely when
some input endpoint was dropped; in particular adding the router's own
endpoint leaves the connection list unchanged and logs one warning. -/
theorem add_connections_filters_and_warns (s : RouterState) (es : List Endpoint) :
    (Router.add_connections s es).connections
        = s.connections
          ++ es.filter (fun e => decide (e ∉ s.connections ∧ e ≠ s.endpoint))
    ∧ ((Router.add_connections s es).logs
        = if ∃ e ∈ es, e ∈ s.connections ∨ e = s.endpoint
          then s.logs ++ ["Ignoring attempt to connect self or duplicate endpoint."]
          else s.logs)
    ∧ (Router.add_connections s [s.endpoint]).connections = s.connections
    ∧ (Router.add_connections s [s.endpoint]).logs
        = s.logs ++ ["Ignoring attempt to connect self or duplicate endpoint."] := by
  have hfilter : [s.endpoint].filter
      (fun e => decide (e ∉ s.connections ∧ e ≠ s.endpoint)) = [] := by
    simp
  have hcond : ((es.filter
        (fun e => decide (e ∉ s.connections ∧ e ≠ s.endpoint))).length ≠ es.length)
      ↔ ∃ e ∈ es, e ∈ s.connections ∨ e = s.endpoint := by
    rw [Ne, length_filter_eq_iff_all]
    simp only [decide_eq_true_eq]
    push_neg
    constructor
    · rintro ⟨e, he, hx⟩
      refine ⟨e, he, ?_⟩
      by_cases hm : e ∈ s.connections
      · exact Or.inl hm
      · exact Or.inr (hx hm)
    · rintro ⟨e, he, hor⟩
      refine ⟨e, he, ?_⟩
      intro hm
      rcases hor with h | h
      · exact absurd h hm
      · exact h
  refine ⟨add_connections_connections s es, ?_, ?_, ?_⟩
  · rw [add_connections_logs]
    by_cases hx : ∃ e ∈ es, e ∈ s.connections ∨ e = s.endpoint
    · rw [if_pos (hcond.mpr hx), if_pos hx]
    · rw [if_neg (fun hh => hx (hcond.mp hh)), if_neg hx]
  · rw [add_connections_connections, hfilter, List.append_nil]
  · rw [add_connections_logs, hfilter]
    simp

/-- C2 counterexample: constructing a Router with the initial list
`[epB, epB]` copies it verbatim, so the Connection Set holds two
structurally-equal endpoints. -/
theorem connections_dup_after_init :
    ¬ (Router.mkRouter epA (some [epB, epB])).connections.Nodup := by
  decide

/-- Helper: `add_connections` preserves duplicate-freeness when its
argument list is duplicate-free. -/
theorem add_connections_nodup (s : RouterState) (es : List Endpoint)
    (h : s.connections.Nodup) (hes : es.Nodup) :
    (Router.add_connections s es).connections.Nodup := by
  rw [add_connections_connections]
  refine List.Nodup.append h (hes.filter _) ?_
  intro a ha hafil
  have := List.of_mem_filter hafil
  rw [decide_eq_true_eq] at this
  exact this.1 ha

/-- Helper: `remove_connections` preserves duplicate-freeness. -/
theorem remove_connections_nodup (s : RouterState) (es : List Endpoint)
    (h : s.connections.Nodup) :
    (Router.remove_connections s es).connections.Nodup := by
  rw [Router.remove_connections]
  exact h.filter _

/-- Helper: one mutation preserves duplicate-freeness. -/
theorem applyOp_nodup (s : RouterState) (op : Router.Op)
    (h : s.connections.Nodup) (hop : op.inputNodupB = true) :
    (Router.applyOp s op).connections.Nodup := by
  cases op with
  | add es =>
    rw [Router.Op.inputNodupB, decide_eq_true_eq] at hop
    exact add_connections_nodup s es h hop
  | remove es => exact remove_connections_nodup s es h

/-- Helper: a mutation sequence preserves duplicate-freeness. -/
theorem applyOps_nodup (ops : List Router.Op) :
    ∀ s : RouterState, s.connections.Nodup →
      (∀ op ∈ ops, op.inputNodupB = true) →
      (Router.applyOps s ops).connections.Nodup := by
  induction ops with
  | nil => exact fun s h _ => h
  | cons op rest ih =>
    intro s h hops
    rw [Router.applyOps, List.foldl_cons]
    exact ih _ (applyOp_nodup s op h (hops op (List.mem_cons_self op rest)))
      (fun o ho => hops o (List.mem_cons_of_mem op ho))

/-- C2 (amended): if the initial connections list is duplicate-free and
every list passed to `addConnections` is duplicate-free, then after
construction and any sequence of `addConnections`/`removeConnections`
calls the Connection Set never contains two structurally-equal
endpoints.  (Unamended the claim is false: construction copies the
initial list verbatim, and `add_connections` filters only against the
pre-existing list, so a duplicated input slips through.) -/
theorem connections_nodup_invariant (self : Endpoint) (init : List Endpoint)
    (ops : List Router.Op) (h0 : init.Nodup)
    (hops : ∀ op ∈ ops, op.inputNodupB = true) :
    (Router.applyOps (Router.mkRouter self (some init)) ops).connections.Nodup :=
  applyOps_nodup ops _ h0 hops

/-- C2 witness: a duplicate-free initial list stays duplicate-free
under an interleaving of adds and removes. -/
theorem connections_nodup_invariant_witness :
    (Router.applyOps (Router.mkRouter epA (some [epB]))
        [.add [epA, epB, epC], .remove [epB], .add [epB]]).connections.Nodup :=
  connections_nodup_invariant epA [epB]
    [.add [epA, epB, epC], .remove [epB], .add [epB]]
    (by decide) (by decide)

/-- C3 counterexample: constructing a Router whose initial connections
list contains its own listening endpoint keeps that endpoint — the
router would forward to itself. -/
theorem self_in_connections_after_init :
    epA ∈ (Router.mkRouter epA (some [epA])).connections := by
  decide

/-- Helper: mutations never change the router's own endpoint. -/
theorem applyOp_endpoint (s : RouterState) (op : Router.Op) :
    (Router.applyOp s op).endpoint = s.endpoint := by
  cases op with
  | add es => exact add_connections_endpoint s es
  | remove es => rfl

/-- Helper: one mutation preserves "own endpoint not a connection". -/
theorem applyOp_self_not_mem (s : RouterState) (op : Router.Op)
    (h : s.endpoint ∉ s.connections) :
    (Router.applyOp s op).endpoint ∉ (Router.applyOp s op).connections := by
  rw [applyOp_endpoint]
  cases op with
  | add es =>
    rw [Router.applyOp, add_connections_connections]
    intro hmem
    rcases List.mem_append.mp hmem with hm | hm
    · exact h hm
    · have := List.of_mem_filter hm
      rw [decide_eq_true_eq] at this
      exact this.2 rfl
  | remove es =>
    rw [Router.applyOp, Router.remove_connections]
    intro hmem
    exact h (List.mem_of_mem_filter hmem)

/-- Helper: a mutation sequence preserves "own endpoint not a
connection". -/
theorem applyOps_self_not_mem (ops : List Router.Op) :
    ∀ s : RouterState, s.endpoint ∉ s.connections →
      (Router.applyOps s ops).endpoint ∉ (Router.applyOps s ops).connections := by
  induction ops with
  | nil => exact fun s h => h
  | cons op rest ih =>
    intro s h
    rw [Router.applyOps, List.foldl_cons]
    exact ih _ (applyOp_self_not_mem s op h)

/-- Helper: a mutation sequence never changes the router's own
endpoint. -/
theorem applyOps_endpoint (ops : List Router.Op) :
    ∀ s : RouterState, (Router.applyOps s ops).endpoint = s.endpoint := by
  induction ops with
  | nil => exact fun s => rfl
  | cons op rest ih =>
    intro s
    rw [Router.applyOps, List.foldl_cons]
    rw [show List.foldl Router.applyOp (Router.applyOp s op) rest
        = Router.applyOps (Router.applyOp s op) rest from rfl]
    rw [ih, applyOp_endpoint]

/-- C3 (amended): provided the initial connections list does not contain
the router's own listening endpoint, that endpoint is never a member of
the Connection Set after construction and any sequence of
`addConnections`/`removeConnections` calls.  (Unamended the claim is
false: construction copies the initial list verbatim, self included.) -/
theorem self_never_a_connection (self : Endpoint) (init : List Endpoint)
    (ops : List Router.Op) (h0 : self ∉ init) :
    self ∉ (Router.applyOps (Router.mkRouter self (some init)) ops).connections := by
  have hbase : (Router.mkRouter self (some init)).endpoint
      ∉ (Router.mkRouter self (some init)).connections := h0
  have h := applyOps_self_not_mem ops (Router.mkRouter self (some init)) hbase
  rwa [applyOps_endpoint] at h

/-- C3 witness: with a self-free initial list, self stays out of the
Connection Set across adds (including an attempted self add) and
removes. -/
theorem self_never_a_connection_witness :
    epA ∉ (Router.applyOps (Router.mkRouter epA (some [epB]))
        [.add [epA, epC], .remove [epB]]).connections :=
  self_never_a_connection epA [epB] [.add [epA, epC], .remove [epB]] (by decide)

/-- C4 counterexample: `Endpoint(h, 0)` — a port outside `[1, 65535]` —
constructs successfully instead of failing: the dataclass performs no
validation. -/
theorem endpoint_port_zero_constructs :
    mkEndpoint "localhost" 0 = .ok ⟨"localhost", 0⟩ := rfl

/-- C4 (amended): Endpoint construction applies no port validation at
all — for every host and every integer port, in range or not (including
0 and 65536), construction succeeds and stores the fields verbatim.
(Port-range validation happens only at the UI boundary, outside this
core.) -/
theorem endpoint_construction_unvalidated (host : String) (p : Int) :
    mkEndpoint host p = .ok ⟨host, p⟩ := rfl

/-- Helper: `dropWhile` runs past an appended block only up to the
first element failing the predicate. -/
theorem dropWhile_append_stop (p : Char → Bool) (l₁ l₂ : List Char) (c : Char)
    (hc : p c = false) :
    (l₁ ++ c :: l₂).dropWhile p = l₁.dropWhile p ++ c :: l₂ := by
  induction l₁ with
  | nil => simp [List.dropWhile_cons, hc]
  | cons a t ih =>
    by_cases ha : p a
    · simp [List.dropWhile_cons, ha, ih]
    · simp [List.dropWhile_cons, ha]

/-- Helper: `rstrip` stops at a non-whitespace character. -/
theorem pyRStrip_append_stop (l₁ l₂ : List Char) (c : Char)
    (hc : isPySpace c = false) :
    pyRStrip (l₁ ++ c :: l₂) = l₁ ++ c :: pyRStrip l₂ := by
  unfold pyRStrip
  rw [List.reverse_append, List.reverse_cons, List.append_assoc]
  rw [show [c] ++ l₁.reverse = c :: l₁.reverse from rfl]
  rw [dropWhile_append_stop _ _ _ _ hc]
  rw [List.reverse_append, List.reverse_cons, List.reverse_reverse]
  rw [List.append_assoc]
  rfl

/-- Helper: `lstrip` is the identity on a string whose head is not
whitespace. -/
theorem pyLStrip_cons_stop (c : Char) (l : List Char) (hc : isPySpace c = false) :
    pyLStrip (c :: l) = c :: l := by
  simp [pyLStrip, List.dropWhile_cons, hc]

/-- Helper: stripping `"[...]payload"` strips only the payload's tail. -/
theorem pyStrip_wrapped (mid payload : List Char) :
    pyStrip ('[' :: (mid ++ ']' :: payload)) = '[' :: (mid ++ ']' :: pyRStrip payload) := by
  unfold pyStrip
  rw [pyLStrip_cons_stop '[' _ (by decide)]
  rw [show '[' :: (mid ++ ']' :: payload) = ('[' :: mid) ++ ']' :: payload from rfl]
  rw [pyRStrip_append_stop _ _ _ (by decide)]
  rfl

/-- Helper: `lstrip` is the identity on whitespace-free text. -/
theorem pyLStrip_eq_self (l : List Char) (h : ∀ c ∈ l, isPySpace c = false) :
    pyLStrip l = l := by
  cases l with
  | nil => rfl
  | cons a t => simp [pyLStrip, List.dropWhile_cons, h a (List.mem_cons_self a t)]

/-- Helper: `rstrip` is the identity on whitespace-free text. -/
theorem pyRStrip_eq_self (l : List Char) (h : ∀ c ∈ l, isPySpace c = false) :
    pyRStrip l = l := by
  unfold pyRStrip
  have hd : l.reverse.dropWhile isPySpace = l.reverse := by
    cases hr : l.reverse with
    | nil => rfl
    | cons a t =>
      have ha : a ∈ l := by
        rw [← List.mem_reverse, hr]
        exact List.mem_cons_self a t
      simp [List.dropWhile_cons, h a ha]
  rw [hd, List.reverse_reverse]

/-- Helper: `strip` is the identity on whitespace-free text. -/
theorem pyStrip_eq_self (l : List Char) (h : ∀ c ∈ l, isPySpace c = false) :
    pyStrip l = l := by
  rw [pyStrip, pyLStrip_eq_self l h, pyRStrip_eq_self l h]

/-- Helper: `split(sep, maxsplit=1)` splits at the first separator. -/
theorem splitFirst_append (sep : Char) (l₁ l₂ : List Char) (h : sep ∉ l₁) :
    splitFirst sep (l₁ ++ sep :: l₂) = some (l₁, l₂) := by
  induction l₁ with
  | nil => simp [splitFirst]
  | cons a t ih =>
    have ha : ¬(a = sep) := fun hh => h (hh ▸ List.mem_cons_self a t)
    rw [List.cons_append, splitFirst, if_neg ha,
      ih (fun hm => h (List.mem_cons_of_mem a hm))]

/-- Helper: the success path of `parse_message` on any text of the
framed form `"[host:port]payload"`: the port text is converted by `int`
and returned verbatim, the ip is returned as written (when free of
whitespace), the payload keeps everything after the first `]` with
leading (and, via the initial `strip`, trailing) whitespace removed. -/
theorem parse_message_ok_format (s : String) (host portStr payload : List Char) (n : Int)
    (hs : s.data = '[' :: (host ++ ':' :: (portStr ++ ']' :: payload)))
    (hhb : ']' ∉ host) (hhc : ':' ∉ host) (hhs : ∀ c ∈ host, isPySpace c = false)
    (hpb : ']' ∉ portStr)
    (hn : pyInt portStr = some n) :
    parse_message s = .ok (String.mk host, n, String.mk (pyLStrip (pyRStrip payload))) := by
  have hassoc : host ++ ':' :: (portStr ++ ']' :: payload)
      = (host ++ ':' :: portStr) ++ ']' :: payload := by
    simp
  have h2 : splitFirst ']' ((host ++ ':' :: portStr) ++ ']' :: pyRStrip payload)
      = some (host ++ ':' :: portStr, pyRStrip payload) := by
    refine splitFirst_append _ _ _ ?_
    intro hmem
    rcases List.mem_append.mp hmem with hm | hm
    · exact hhb hm
    · rcases List.mem_cons.mp hm with hm1 | hm1
      · exact absurd hm1 (by decide)
      · exact hpb hm1
  have h3 : splitFirst ':' (host ++ ':' :: portStr) = some (host, portStr) :=
    splitFirst_append _ _ _ hhc
  simp only [parse_message]
  rw [hs, hassoc, pyStrip_wrapped]
  simp only [h2, h3, hn, pyStrip_eq_self host hhs]

/-- C5 counterexample: text with a well-formed header but no payload at
all does not fail — `parse_message "[127.0.0.1:9999]"` returns an empty
payload, contradicting the claim that a missing payload is rejected
with `InvalidFormat`. -/
theorem parse_message_missing_payload_ok :
    parse_message "[127.0.0.1:9999]" = .ok ("127.0.0.1", 9999, "") := by
  rfl

/-- C5 (amended): `parse(text)` returns `(host, port, payload stripped
of surrounding whitespace)` for every text of the framed form
`"[host:port] payload"`, and fails on a missing leading `[`, a missing
`]`, a missing `:` in the header, or a non-integer port — but a missing
payload is not an error: it yields the empty payload. -/
theorem parse_message_spec :
    (∀ (s : String) (host portStr payload : List Char) (n : Int),
        s.data = '[' :: (host ++ ':' :: (portStr ++ ']' :: payload)) →
        ']' ∉ host → ':' ∉ host → (∀ c ∈ host, isPySpace c = false) →
        ']' ∉ portStr → pyInt portStr = some n →
        parse_message s = .ok (String.mk host, n, String.mk (pyLStrip (pyRStrip payload))))
    ∧ parse_message "[127.0.0.1:9999] hello" = .ok ("127.0.0.1", 9999, "hello")
    ∧ (∃ m, parse_message "hello" = .error m)
    ∧ (∃ m, parse_message "127.0.0.1:9999] hello" = .error m)
    ∧ (∃ m, parse_message "[127.0.0.1:9999 hello" = .error m)
    ∧ (∃ m, parse_message "[127.0.0.19999] hello" = .error m)
    ∧ (∃ m, parse_message "[127.0.0.1:abc] hello" = .error m)
    ∧ parse_message "[127.0.0.1:9999]" = .ok ("127.0.0.1", 9999, "") :=
  ⟨parse_message_ok_format, by rfl, ⟨_, by rfl⟩, ⟨_, by rfl⟩, ⟨_, by rfl⟩,
    ⟨_, by rfl⟩, ⟨_, by rfl⟩, by rfl⟩

/-- C5 witness: the framed-form clause applied to the concrete text
`"[h:1] x"`. -/
theorem parse_message_spec_witness :
    parse_message "[h:1] x" = .ok ("h", 1, "x") :=
  parse_message_spec.1 "[h:1] x" ['h'] ['1'] [' ', 'x'] 1
    (by decide) (by decide) (by decide) (by decide) (by decide) (by decide)

/-- C9: `parse_message` applies no range check to the parsed port: any
integer the header carries is returned as-is, even when it lies outside
the `[1, 65535]` port range — `"[10.0.0.1:-5] x"` yields port `-5` and
`"[10.0.0.1:70000] x"` yields port `70000`. -/
theorem parse_message_no_range_check :
    (∀ (s : String) (host portStr payload : List Char) (n : Int),
        n < 1 ∨ 65535 < n →
        s.data = '[' :: (host ++ ':' :: (portStr ++ ']' :: payload)) →
        ']' ∉ host → ':' ∉ host → (∀ c ∈ host, isPySpace c = false) →
        ']' ∉ portStr → pyInt portStr = some n →
        parse_message s = .ok (String.mk host, n, String.mk (pyLStrip (pyRStrip payload))))
    ∧ parse_message "[10.0.0.1:-5] x" = .ok ("10.0.0.1", -5, "x")
    ∧ ((-5 : Int) < 1)
    ∧ parse_message "[10.0.0.1:70000] x" = .ok ("10.0.0.1", 70000, "x")
    ∧ ((65535 : Int) < 70000) :=
  ⟨fun s host portStr payload n _ hs hhb hhc hhs hpb hn =>
      parse_message_ok_format s host portStr payload n hs hhb hhc hhs hpb hn,
    by rfl, by decide, by rfl, by decide⟩

/-- C9 witness: the general clause applied to the concrete text
`"[h:-5] x"`, whose port `-5` lies outside `[1, 65535]`. -/
theorem parse_message_no_range_check_witness :
    parse_message "[h:-5] x" = .ok ("h", -5, "x") :=
  parse_message_no_range_check.1 "[h:-5] x" ['h'] ['-', '5'] [' ', 'x'] (-5)
    (by decide) (by decide) (by decide) (by decide) (by decide) (by decide) (by decide)
